import Mathlib

/-!
# Verification of the openclaw-plugin connection and call-session logic

Shallow embedding of the voice-plugin sources:

* `Channel`   — per-call session logic from `src/channel.ts`
  (idle detection, filler scheduling, call-end handling, status query).
* `Websocket` — connection lifecycle from `src/websocket.ts`
  (connect, disconnect, auth handling, keepalive, reconnect backoff).

Timer handles (`NodeJS.Timeout`) are modelled as booleans recording whether a
timer is armed and uncancelled; a timer callback is modelled as a function
that fires only when the corresponding flag is set (firing a cancelled timer
is impossible in the single-threaded event loop, since `clearTimeout` /
`clearInterval` removes the queued callback).  `Date.now()` times are passed
in explicitly as `Int` milliseconds.
-/

namespace Channel

/-- Connection status union from `src/types.ts` (`ConnectionStatus`). -/
inductive ConnectionStatus
  | disconnected
  | connecting
  | connected
  | reconnecting
  | error
  deriving DecidableEq, Repr

/-- Resolved filler config block (`ResolvedFillerConfig` in `src/types.ts`).
`initialDelaySec`/`intervalSec` only set timer delays and do not affect which
messages are sent, so they are kept as plain naturals. -/
structure FillerConfig where
  enabled : Bool
  phrases : List String
  initialDelaySec : Nat
  intervalSec : Nat
  maxPerRequest : Nat
  deriving DecidableEq, Repr

/-- Resolved idle config block (`ResolvedIdleConfig` in `src/types.ts`). -/
structure IdleConfig where
  enabled : Bool
  timeoutSec : Nat
  prompt : String
  maxPrompts : Nat
  endMessage : String
  deriving DecidableEq, Repr

/-- Per-call session state (`CallState` in `src/channel.ts`).
`idleCheckActive` models `idleCheckInterval !== null` (an armed interval);
`fillerPending` models `fillerTimer !== null` (an armed, uncancelled
timeout). -/
structure CallState where
  callId : String
  lastActivityAt : Int
  idlePromptCount : Nat
  idleCheckActive : Bool
  currentRequestId : Option String
  fillerPending : Bool
  fillerCount : Nat
  fillerPhraseIndex : Nat
  deriving DecidableEq, Repr

/-- `createCallState` from `src/channel.ts`; `now` stands for `Date.now()`. -/
def createCallState (callId : String) (now : Int) : CallState :=
  { callId := callId
    lastActivityAt := now
    idlePromptCount := 0
    idleCheckActive := false
    currentRequestId := none
    fillerPending := false
    fillerCount := 0
    fillerPhraseIndex := 0 }

/-- `clearCallState` from `src/channel.ts`: cancel both timers. -/
def clearCallState (st : CallState) : CallState :=
  { st with fillerPending := false, idleCheckActive := false }

/-- `clearFillerTimer` from `src/channel.ts`: cancel the pending filler
timeout, clear `currentRequestId`, reset the per-request filler count. -/
def clearFillerTimer (st : CallState) : CallState :=
  { st with fillerPending := false, currentRequestId := none, fillerCount := 0 }

/-- Output of one firing of the filler chain. -/
inductive FillerAction
  | nothing
  | sendFiller (requestId : String) (phrase : String)
  deriving DecidableEq, Repr

/-- Body of the `sendFiller` closure in `startFillerTimer`
(`src/channel.ts`): guard on `currentRequestId` and the per-request cap,
then send the next round-robin phrase and reschedule while under
`maxPerRequest`. -/
def sendFillerBody (cfg : FillerConfig) (st : CallState) : CallState × FillerAction :=
  match st.currentRequestId with
  | none => (st, FillerAction.nothing)
  | some rid =>
    if cfg.maxPerRequest ≤ st.fillerCount then (st, FillerAction.nothing)
    else
      -- `phrases[fillerPhraseIndex % phrases.length]`
      let phrase := cfg.phrases.getD (st.fillerPhraseIndex % cfg.phrases.length) ""
      ({ st with
          fillerPhraseIndex := st.fillerPhraseIndex + 1
          fillerCount := st.fillerCount + 1
          fillerPending := decide (st.fillerCount + 1 < cfg.maxPerRequest) },
       FillerAction.sendFiller rid phrase)

/-- One firing opportunity of the filler timeout: the callback runs only if a
timer is still armed (`clearTimeout` removes the queued callback). -/
def fireFiller (cfg : FillerConfig) (st : CallState) : CallState × FillerAction :=
  if st.fillerPending then sendFillerBody cfg { st with fillerPending := false }
  else (st, FillerAction.nothing)

/-- `startFillerTimer` from `src/channel.ts`: arm the first filler timeout
when fillers are enabled, the cap is positive and the phrase list is
non-empty; the per-request count starts at 0. -/
def startFillerTimer (cfg : FillerConfig) (st : CallState) : CallState :=
  if cfg.enabled && decide (0 < cfg.maxPerRequest) && decide (cfg.phrases ≠ []) then
    { st with fillerCount := 0, fillerPending := true }
  else st

/-- Iterate `n` firing opportunities of the filler chain, collecting the
actions. -/
def fillerRun (cfg : FillerConfig) (st : CallState) : Nat → CallState × List FillerAction
  | 0 => (st, [])
  | n + 1 =>
    let p := fireFiller cfg st
    let q := fillerRun cfg p.1 n
    (q.1, p.2 :: q.2)

/-- Output of one idle-check tick. -/
inductive IdleAction
  | nothing
  | speakPrompt (callId : String) (text : String)
  | speakEnd (callId : String) (text : String)
  deriving DecidableEq, Repr

/-- `startIdleCheckInterval` from `src/channel.ts`: arm the 10s-interval only
when idle detection is enabled. -/
def startIdleCheckInterval (cfg : IdleConfig) (st : CallState) : CallState :=
  if cfg.enabled then { st with idleCheckActive := true } else st

/-- The interval callback of `startIdleCheckInterval` (`src/channel.ts`).
The callback runs only while the interval is armed; it skips while a request
is in flight, skips when the silence is shorter than `timeoutSec`, sends an
idle prompt (resetting `lastActivityAt`) while under `maxPrompts`, and
otherwise sends the end message (`endCall = true` via `ws.sendSpeak(…, true)`)
and clears the interval. -/
def idleTick (cfg : IdleConfig) (now : Int) (st : CallState) : CallState × IdleAction :=
  if !st.idleCheckActive then (st, IdleAction.nothing)
  else if st.currentRequestId.isSome then (st, IdleAction.nothing)
  else if now - st.lastActivityAt < (cfg.timeoutSec : Int) * 1000 then (st, IdleAction.nothing)
  else if st.idlePromptCount < cfg.maxPrompts then
    ({ st with idlePromptCount := st.idlePromptCount + 1, lastActivityAt := now },
     IdleAction.speakPrompt st.callId cfg.prompt)
  else
    ({ st with idleCheckActive := false }, IdleAction.speakEnd st.callId cfg.endMessage)

/-- Run the idle-check callback at each time in `times`, collecting the
actions. -/
def idleRun (cfg : IdleConfig) (st : CallState) : List Int → CallState × List IdleAction
  | [] => (st, [])
  | t :: ts =>
    let p := idleTick cfg t st
    let q := idleRun cfg p.1 ts
    (q.1, p.2 :: q.2)

/-- Lookup in the `callStates` map, modelled as an association list keyed by
`callId`. -/
def lookupCall (m : List (String × CallState)) (cid : String) : Option CallState :=
  match m with
  | [] => none
  | (k, v) :: rest => if k = cid then some v else lookupCall rest cid

/-- `callStates.delete(callId)` on the association-list model. -/
def deleteCall (m : List (String × CallState)) (cid : String) : List (String × CallState) :=
  match m with
  | [] => []
  | (k, v) :: rest => if k = cid then rest else (k, v) :: deleteCall rest cid

/-- The `ws.on("callEnd")` handler in `src/channel.ts`: look the session up;
when present, cancel both its timers (`clearCallState`) and remove it from
the map.  The second component records the `callId`s whose timers were
cancelled (empty when nothing was touched).  The handler never touches the
connection and has no failure path. -/
def handleCallEndEvent (m : List (String × CallState)) (cid : String) :
    List (String × CallState) × List String :=
  match lookupCall m cid with
  | some _ => (deleteCall m cid, [cid])
  | none => (m, [])

/-- `DEFAULT_ACCOUNT_ID` from the plugin SDK. -/
def DEFAULT_ACCOUNT_ID : String := "default"

/-- Observable state of a live `CrabCallrWebSocket`, as read by
`getCrabCallrStatus` through `isConnected()`, `getStatus()`, `getUserId()`
and `getReconnectAttempts()`. -/
structure WsView where
  connected : Bool
  status : ConnectionStatus
  userId : Option String
  reconnectAttempts : Nat
  deriving DecidableEq, Repr

/-- Lookup in the module-level `connections` registry, modelled as an
association list keyed by normalized account id. -/
def lookupConn (m : List (String × WsView)) (k : String) : Option WsView :=
  match m with
  | [] => none
  | (k0, v) :: rest => if k0 = k then some v else lookupConn rest k

/-- Return shape of `getCrabCallrStatus` in `src/channel.ts`. -/
structure StatusResult where
  accountId : String
  connected : Bool
  status : ConnectionStatus
  userId : Option String
  running : Bool
  reconnectAttempts : Nat
  deriving DecidableEq, Repr

/-- `getCrabCallrStatus` from `src/channel.ts`.  `normalize` stands for the
SDK's `normalizeAccountId`, kept abstract. -/
def getCrabCallrStatus (normalize : String → String)
    (conns : List (String × WsView)) (accountId : Option String) : StatusResult :=
  let resolvedId := normalize (accountId.getD DEFAULT_ACCOUNT_ID)
  match lookupConn conns resolvedId with
  | none =>
    { accountId := resolvedId
      connected := false
      status := ConnectionStatus.disconnected
      userId := none
      running := false
      reconnectAttempts := 0 }
  | some r =>
    { accountId := resolvedId
      connected := r.connected
      status := r.status
      userId := r.userId
      running := true
      reconnectAttempts := r.reconnectAttempts }

end Channel

namespace Websocket

open Channel (ConnectionStatus)

/-- Connection-manager configuration fields used by the lifecycle logic
(`reconnectInterval` in milliseconds, `maxReconnectAttempts` with 0 meaning
unlimited), from `CrabCallrConfig` in `src/types.ts`. -/
structure WsConfig where
  reconnectInterval : ℚ
  maxReconnectAttempts : Nat
  deriving DecidableEq, Repr

/-- Mutable fields of the `WebSocket` manager class in `src/websocket.ts`.
`reconnectTimerPending` models `reconnectTimer !== null`, `pingTimerActive`
models `pingTimer !== null` (the 30s interval), `pingTimeoutPending` models
`pingTimeout !== null` (the armed 10s pong deadline), `wsPresent` models
`ws !== null` and `wsOpen` models `ws.readyState === OPEN`. -/
structure WsState where
  status : ConnectionStatus
  reconnectAttempts : Nat
  reconnectTimerPending : Bool
  pingTimerActive : Bool
  pingTimeoutPending : Bool
  authenticated : Bool
  userId : Option String
  wsPresent : Bool
  wsOpen : Bool
  activeCallIds : List String
  deriving DecidableEq, Repr

/-- The manager's initial state (field initializers of the class). -/
def initialState : WsState :=
  { status := ConnectionStatus.disconnected
    reconnectAttempts := 0
    reconnectTimerPending := false
    pingTimerActive := false
    pingTimeoutPending := false
    authenticated := false
    userId := none
    wsPresent := false
    wsOpen := false
    activeCallIds := [] }

/-- Externally visible actions of the manager: emitted events and transport
operations, in program order. -/
inductive WsOut
  | emitConnected
  | emitDisconnected (reason : String)
  | emitError (message : String)
  | emitTranscript (callId : String) (text : String) (isFinal : Bool)
  | emitCallStart (callId : String)
  | emitCallEnd (callId : String) (reason : String)
  | sendAuth
  | sendPing
  | sendPong
  | sendResponseMsg (callId : String) (text : String) (requestId : String)
  | closeSocket (code : Nat)
  deriving DecidableEq, Repr

/-- `isConnected()` from `src/websocket.ts`. -/
def isConnected (s : WsState) : Bool :=
  decide (s.status = ConnectionStatus.connected) && s.authenticated

/-- The `send` method drops the message with a warning unless the transport
exists and is open. -/
def sendIfOpen (s : WsState) (o : WsOut) : List WsOut :=
  if s.wsPresent && s.wsOpen then [o] else []

/-- The backoff delay computed in `scheduleReconnect`
(`src/websocket.ts`):
`Math.min(base * Math.pow(1.5, attempts - 1) + Math.random() * 1000, 60000)`,
with `jitter = Math.random() * 1000 ∈ [0, 1000)`. -/
def reconnectDelay (baseInterval : ℚ) (attempts : Nat) (jitter : ℚ) : ℚ :=
  min (baseInterval * (3 / 2 : ℚ) ^ (attempts - 1) + jitter) 60000

/-- The backoff formula exactly as §8 of the spec words it:
`delay = min(baseInterval * 1.5^(attempts-1) + uniformRandom(0,1000ms), 60000ms)`.
Stated separately from `reconnectDelay` (which is read off the source) so the
two can be compared. -/
def specBackoffDelay (baseInterval : ℚ) (attempts : Nat) (jitter : ℚ) : ℚ :=
  min (baseInterval * (3 / 2 : ℚ) ^ (attempts - 1) + jitter) 60000

/-- `scheduleReconnect` from `src/websocket.ts`.  When the attempt cap is hit
the status becomes `error` and no timer is armed (second component `none`);
otherwise the counter increments, the status becomes `reconnecting` and the
reconnect timer is armed with the backoff delay (second component). -/
def scheduleReconnect (cfg : WsConfig) (jitter : ℚ) (s : WsState) : WsState × Option ℚ :=
  if 0 < cfg.maxReconnectAttempts ∧ cfg.maxReconnectAttempts ≤ s.reconnectAttempts then
    ({ s with status := ConnectionStatus.error }, none)
  else
    ({ s with
        reconnectAttempts := s.reconnectAttempts + 1
        status := ConnectionStatus.reconnecting
        reconnectTimerPending := true },
     some (reconnectDelay cfg.reconnectInterval (s.reconnectAttempts + 1) jitter))

/-- `clearPingTimers` from `src/websocket.ts`. -/
def clearPingTimers (s : WsState) : WsState :=
  { s with pingTimerActive := false, pingTimeoutPending := false }

/-- `clearTimers` from `src/websocket.ts`. -/
def clearTimers (s : WsState) : WsState :=
  { clearPingTimers s with reconnectTimerPending := false }

/-- `startPingTimer` from `src/websocket.ts`: clear any previous keepalive
timers and arm the 30s ping interval (the 10s pong deadline is armed later,
inside the interval callback). -/
def startPingTimer (s : WsState) : WsState :=
  { clearPingTimers s with pingTimerActive := true }

/-- `disconnect` from `src/websocket.ts`: clear all timers, zero the
reconnect counter, remove the transport's listeners and close it cleanly
(code 1000) when open, drop auth state and all active calls, set the status
to `disconnected` and emit `disconnected`.  Because `removeAllListeners()`
runs before `close`, the resulting close event reaches no handler. -/
def disconnect (s : WsState) : WsState × List WsOut :=
  let s1 := { clearTimers s with reconnectAttempts := 0 }
  let closeOuts := if s1.wsPresent && s1.wsOpen then [WsOut.closeSocket 1000] else []
  let s2 := { s1 with
      wsPresent := false
      wsOpen := false
      authenticated := false
      userId := none
      activeCallIds := []
      status := ConnectionStatus.disconnected }
  (s2, closeOuts ++ [WsOut.emitDisconnected "Client initiated disconnect"])

/-- `connect` from `src/websocket.ts`.  `ctorOk = false` models the
`new WebSocket(...)` constructor throwing.  The guard makes `connect` a
no-op while the manager already holds a transport and is connected or
connecting.  On a constructor throw the error is caught: the status is set
to `error` and `scheduleReconnect` runs (the caught branch arms the backoff
timer; the returned delay is the armed one, `none` when no timer was
armed).  `connect` returns `void` in the source and has no rejection path. -/
def connect (cfg : WsConfig) (ctorOk : Bool) (jitter : ℚ) (s : WsState) : WsState × Option ℚ :=
  if s.wsPresent && (decide (s.status = ConnectionStatus.connected)
      || decide (s.status = ConnectionStatus.connecting)) then
    (s, none)
  else
    let s1 := { s with status := ConnectionStatus.connecting }
    if ctorOk then ({ s1 with wsPresent := true, wsOpen := false }, none)
    else scheduleReconnect cfg jitter { s1 with status := ConnectionStatus.error }

/-- `handleOpen` from `src/websocket.ts` (the transport's `open` callback,
so the transport is now in the OPEN state): reset `reconnectAttempts` to 0
and send the `auth` message. -/
def handleOpen (s : WsState) : WsState × List WsOut :=
  let s1 := { s with reconnectAttempts := 0, wsOpen := true }
  (s1, sendIfOpen s1 WsOut.sendAuth)

/-- `handleAuthResponse` from `src/websocket.ts`.  On success: mark
authenticated, store the user id, set status `connected`, start the
keepalive timer and emit `connected` (the reconnect counter is not
touched here).  On failure: set status `error`, emit `error`, then run
`disconnect()` — no reconnect is scheduled. -/
def handleAuthResponse (success : Bool) (uid : Option String) (errMsg : String)
    (s : WsState) : WsState × List WsOut :=
  if success then
    ({ startPingTimer s with
        authenticated := true
        userId := uid
        status := ConnectionStatus.connected },
     [WsOut.emitConnected])
  else
    let p := disconnect { s with status := ConnectionStatus.error }
    (p.1, WsOut.emitError ("Authentication failed: " ++ errMsg) :: p.2)

/-- `handleCallStart` from `src/websocket.ts` (`activeCalls.set`). -/
def handleCallStart (cid : String) (s : WsState) : WsState × List WsOut :=
  ({ s with activeCallIds := if cid ∈ s.activeCallIds then s.activeCallIds
                             else cid :: s.activeCallIds },
   [WsOut.emitCallStart cid])

/-- `handleCallEnd` from `src/websocket.ts` (`activeCalls.delete`). -/
def handleCallEnd (cid : String) (reason : String) (s : WsState) : WsState × List WsOut :=
  ({ s with activeCallIds := s.activeCallIds.erase cid }, [WsOut.emitCallEnd cid reason])

/-- `handlePing` from `src/websocket.ts`: reply with an application `pong`. -/
def handlePing (s : WsState) : WsState × List WsOut :=
  (s, sendIfOpen s WsOut.sendPong)

/-- Inbound wire messages as discriminated by `processMessage`
(`src/websocket.ts`).  `pong` is a message type the service can send
(`MessageType.PONG` in `src/types.ts`), and `unknownType` stands for any
other `type` string. -/
inductive InMsg
  | authResponse (success : Bool) (uid : Option String) (errMsg : String)
  | transcript (callId : String) (text : String) (isFinal : Bool)
  | callStart (callId : String)
  | callEnd (callId : String) (reason : String)
  | ping
  | errorMsg (code : String) (message : String)
  | pong
  | unknownType (t : String)
  deriving DecidableEq, Repr

/-- `processMessage` from `src/websocket.ts`.  The switch has cases for
`auth_response`, `transcript`, `call_start`, `call_end`, `ping` and `error`;
everything else — including an inbound `pong` — falls into the default
branch, which only logs `Unknown message type` and changes nothing. -/
def processMessage (m : InMsg) (s : WsState) : WsState × List WsOut :=
  match m with
  | InMsg.authResponse success uid errMsg => handleAuthResponse success uid errMsg s
  | InMsg.transcript cid text isFinal => (s, [WsOut.emitTranscript cid text isFinal])
  | InMsg.callStart cid => handleCallStart cid s
  | InMsg.callEnd cid reason => handleCallEnd cid reason s
  | InMsg.ping => handlePing s
  | InMsg.errorMsg code msg => (s, [WsOut.emitError (code ++ ": " ++ msg)])
  | InMsg.pong => (s, [])
  | InMsg.unknownType _ => (s, [])

/-- `handleClose` from `src/websocket.ts`: clear all timers, drop auth,
remember whether the status was `connected`, set it to `disconnected`
(the transport is closed), emit `disconnected` if it was connected, and
schedule a reconnect unless the close was clean (code 1000). -/
def handleClose (cfg : WsConfig) (code : Nat) (reason : String) (jitter : ℚ)
    (s : WsState) : WsState × List WsOut × Option ℚ :=
  let s1 := { clearTimers s with authenticated := false }
  let wasConnected := decide (s1.status = ConnectionStatus.connected)
  let s2 := { s1 with status := ConnectionStatus.disconnected, wsOpen := false }
  let outs := if wasConnected then [WsOut.emitDisconnected reason] else []
  if code ≠ 1000 then
    let p := scheduleReconnect cfg jitter s2
    (p.1, outs, p.2)
  else (s2, outs, none)

/-- `handleError` from `src/websocket.ts`: log and emit `error`; no state
change and no reconnect (a close event follows at the transport level). -/
def handleError (msg : String) (s : WsState) : WsState × List WsOut :=
  (s, [WsOut.emitError msg])

/-- The 30s keepalive-interval callback inside `startPingTimer`
(`src/websocket.ts`): it runs only while the interval is armed, does nothing
unless connected and authenticated, and otherwise sends an application
`ping` and arms the 10s pong deadline. -/
def pingIntervalFire (s : WsState) : WsState × List WsOut :=
  if !s.pingTimerActive then (s, [])
  else if !isConnected s then (s, [])
  else ({ s with pingTimeoutPending := true },
        if s.wsPresent then [WsOut.sendPing] else [])

/-- The 10s pong-deadline callback inside `startPingTimer`
(`src/websocket.ts`): when it is still armed it force-closes the socket with
code 4000 to trigger a reconnect. -/
def pingTimeoutFire (s : WsState) : WsState × List WsOut :=
  if s.pingTimeoutPending then
    ({ s with pingTimeoutPending := false },
     if s.wsPresent then [WsOut.closeSocket 4000] else [])
  else (s, [])

end Websocket

namespace Channel

/-- Session state reached after `j` idle prompts in the no-activity
scenario: the idle interval is armed, no request is in flight, and the
`j`-th prompt (if any) reset `lastActivityAt` to its send time
`j * timeoutSec * 1000`. -/
def promptSt (cfg : IdleConfig) (cid : String) (j : Nat) : CallState :=
  { callId := cid
    lastActivityAt := (j : Int) * ((cfg.timeoutSec : Int) * 1000)
    idlePromptCount := j
    idleCheckActive := true
    currentRequestId := none
    fillerPending := false
    fillerCount := 0
    fillerPhraseIndex := 0 }

/-- Tick times for the no-activity scenario, starting after `j` prompts:
`n` consecutive idle-check firings, the `i`-th at `(j + i + 1) * T`
milliseconds (so each falls one full idle timeout after the activity reset
made by the previous prompt). -/
def idleTimesFrom (T : Int) (j : Nat) : Nat → List Int
  | 0 => []
  | n + 1 => ((j : Int) + 1) * T :: idleTimesFrom T (j + 1) n

end Channel

/-- Sample manager state with three reconnect attempts accumulated, used to
exhibit where the counter is and is not reset. -/
def attemptsThree : Websocket.WsState :=
  { Websocket.initialState with
      reconnectAttempts := 3
      wsPresent := true
      wsOpen := true
      status := Channel.ConnectionStatus.connecting }

/-- Connected, authenticated manager state in which a keepalive ping has
been sent and the 10-second pong deadline is pending. -/
def pingSentState : Websocket.WsState :=
  { Websocket.initialState with
      status := Channel.ConnectionStatus.connected
      authenticated := true
      userId := some "u1"
      wsPresent := true
      wsOpen := true
      pingTimerActive := true
      pingTimeoutPending := true }

section IdleSkip

/-- Claim C5: for every idle-check tick of every call session, if a request
is outstanding (`currentRequestId` non-null) at the moment the tick fires,
the tick sends nothing — no idle prompt, no end message — and leaves the
session state (in particular `idlePromptCount` and `lastActivityAt`)
unchanged. -/
theorem idle_tick_skipped_while_request_outstanding
    (cfg : Channel.IdleConfig) (now : Int) (st : Channel.CallState)
    (h : st.currentRequestId.isSome = true) :
    Channel.idleTick cfg now st = (st, Channel.IdleAction.nothing) := by
  unfold Channel.idleTick
  cases hA : st.idleCheckActive <;> simp [hA, h]

/-- Witness for C5 at a concrete in-flight session. -/
theorem idle_tick_skipped_while_request_outstanding_witness :
    (Channel.CallState.mk "c1" 0 0 true (some "r1") false 0 0).currentRequestId.isSome = true
  ∧ Channel.idleTick ⟨true, 60, "still there?", 2, "bye"⟩ 100000
      (Channel.CallState.mk "c1" 0 0 true (some "r1") false 0 0)
    = (Channel.CallState.mk "c1" 0 0 true (some "r1") false 0 0,
       Channel.IdleAction.nothing) :=
  ⟨rfl, idle_tick_skipped_while_request_outstanding _ _ _ rfl⟩

end IdleSkip

section FillerClear

/-- Claim C6: clearing (`clearFillerTimer`, run on response arrival, on
error, and when a new request starts) cancels the pending filler timeout,
sets `currentRequestId` to `none` and resets the per-request filler count to
0, while leaving the phrase cursor untouched; after the clear no filler from
the cleared request's chain is ever sent — the cancelled timeout can no
longer fire (`fillerRun` produces only `nothing` forever), and even the
`sendFiller` body itself is guarded to send nothing once `currentRequestId`
is cleared. -/
theorem clear_filler_cancels_pending_chain
    (cfg : Channel.FillerConfig) (st : Channel.CallState) :
    (Channel.clearFillerTimer st).fillerPending = false
  ∧ (Channel.clearFillerTimer st).currentRequestId = none
  ∧ (Channel.clearFillerTimer st).fillerCount = 0
  ∧ (Channel.clearFillerTimer st).fillerPhraseIndex = st.fillerPhraseIndex
  ∧ (Channel.sendFillerBody cfg (Channel.clearFillerTimer st)).2 = Channel.FillerAction.nothing
  ∧ ∀ n, Channel.fillerRun cfg (Channel.clearFillerTimer st) n
      = (Channel.clearFillerTimer st, List.replicate n Channel.FillerAction.nothing) := by
  refine ⟨rfl, rfl, rfl, rfl, rfl, ?_⟩
  intro n
  induction n with
  | zero => rfl
  | succ n ih =>
    simp only [Channel.fillerRun, Channel.fireFiller, Channel.clearFillerTimer]
    simp only [Channel.fillerRun, Channel.fireFiller, Channel.clearFillerTimer] at ih
    simp [ih, List.replicate_succ]

end FillerClear

section CallEndNoop

/-- Claim C9: handling a `call_end` event whose `callId` has no session in
the call-session map is a no-op — the map is returned unchanged and no
timers are cancelled (and the handler has no failure or disconnect path). -/
theorem call_end_unknown_session_noop
    (m : List (String × Channel.CallState)) (cid : String)
    (h : Channel.lookupCall m cid = none) :
    Channel.handleCallEndEvent m cid = (m, []) := by
  unfold Channel.handleCallEndEvent
  rw [h]

/-- Witness for C9: a map holding only session `"c1"` receives `call_end`
for the unknown `"c2"`. -/
theorem call_end_unknown_session_noop_witness :
    Channel.lookupCall [("c1", Channel.createCallState "c1" 0)] "c2" = none
  ∧ Channel.handleCallEndEvent [("c1", Channel.createCallState "c1" 0)] "c2"
      = ([("c1", Channel.createCallState "c1" 0)], []) :=
  ⟨rfl, call_end_unknown_session_noop _ _ rfl⟩

end CallEndNoop

section StatusQuery

/-- Claim C10: `getCrabCallrStatus` is total for every account id.  With no
connection record it returns the default snapshot — `connected = false`,
`status = "disconnected"`, `userId = null`, `running = false`,
`reconnectAttempts = 0` — for the normalized account id; with a record it
reports `running = true` together with the live connection's `connected`,
`status`, `userId` and `reconnectAttempts`. -/
theorem get_status_total_default_or_live
    (normalize : String → String) (conns : List (String × Channel.WsView))
    (accountId : Option String) :
    (Channel.lookupConn conns (normalize (accountId.getD Channel.DEFAULT_ACCOUNT_ID)) = none →
      Channel.getCrabCallrStatus normalize conns accountId =
        { accountId := normalize (accountId.getD Channel.DEFAULT_ACCOUNT_ID)
          connected := false
          status := Channel.ConnectionStatus.disconnected
          userId := none
          running := false
          reconnectAttempts := 0 })
  ∧ ∀ r : Channel.WsView,
      Channel.lookupConn conns (normalize (accountId.getD Channel.DEFAULT_ACCOUNT_ID)) = some r →
      Channel.getCrabCallrStatus normalize conns accountId =
        { accountId := normalize (accountId.getD Channel.DEFAULT_ACCOUNT_ID)
          connected := r.connected
          status := r.status
          userId := r.userId
          running := true
          reconnectAttempts := r.reconnectAttempts } := by
  constructor
  · intro h
    simp only [Channel.getCrabCallrStatus, h]
  · intro r h
    simp only [Channel.getCrabCallrStatus, h]

/-- Witness for C10: the empty registry yields the default snapshot for
`"default"`, and a registry with a live record yields the live values. -/
theorem get_status_total_default_or_live_witness :
    Channel.getCrabCallrStatus (fun s => s) [] none =
      { accountId := "default"
        connected := false
        status := Channel.ConnectionStatus.disconnected
        userId := none
        running := false
        reconnectAttempts := 0 }
  ∧ Channel.getCrabCallrStatus (fun s => s)
      [("default", ⟨true, Channel.ConnectionStatus.connected, some "u1", 4⟩)] none =
      { accountId := "default"
        connected := true
        status := Channel.ConnectionStatus.connected
        userId := some "u1"
        running := true
        reconnectAttempts := 4 } :=
  ⟨(get_status_total_default_or_live (fun s => s) [] none).1 rfl,
   (get_status_total_default_or_live (fun s => s)
      [("default", ⟨true, Channel.ConnectionStatus.connected, some "u1", 4⟩)] none).2 _ rfl⟩

end StatusQuery

section ReconnectCounter

/-- Counterexample to claim C1 as stated: processing a successful auth
result does NOT reset `reconnectAttempts` (it stays 3), while the transport
`open` event — an event the claim says never resets it — does reset it
to 0. -/
theorem reconnect_reset_on_auth_success_false :
    (Websocket.handleAuthResponse true (some "u1") "" attemptsThree).1.reconnectAttempts = 3
  ∧ (Websocket.handleOpen attemptsThree).1.reconnectAttempts = 0 :=
  ⟨rfl, rfl⟩

/-- Claim C1, amended to what the code does: `reconnectAttempts` is reset
to 0 exactly by `handleOpen` (the transport reporting open) and by
`disconnect()` — including the `disconnect()` performed on auth failure —
and by no other event: the auth-success branch leaves it unchanged, a
transport error leaves it unchanged, and close handling leaves it unchanged
or increments it by one (via `scheduleReconnect`), never resetting it. -/
theorem reconnect_attempts_reset_points
    (cfg : Websocket.WsConfig) (s : Websocket.WsState)
    (uid : Option String) (e r : String) (code : Nat) (j : ℚ) :
    (Websocket.handleOpen s).1.reconnectAttempts = 0
  ∧ (Websocket.disconnect s).1.reconnectAttempts = 0
  ∧ (Websocket.handleAuthResponse false uid e s).1.reconnectAttempts = 0
  ∧ (Websocket.handleAuthResponse true uid e s).1.reconnectAttempts = s.reconnectAttempts
  ∧ (Websocket.handleError e s).1.reconnectAttempts = s.reconnectAttempts
  ∧ ((Websocket.handleClose cfg code r j s).1.reconnectAttempts = s.reconnectAttempts
     ∨ (Websocket.handleClose cfg code r j s).1.reconnectAttempts = s.reconnectAttempts + 1) := by
  refine ⟨rfl, rfl, rfl, rfl, rfl, ?_⟩
  unfold Websocket.handleClose Websocket.scheduleReconnect
  dsimp only
  split
  · split
    · exact Or.inl rfl
    · exact Or.inr rfl
  · exact Or.inl rfl

end ReconnectCounter

section PongHandling

/-- Claim C2 evaluated at its failing input: `processMessage` has no `pong`
case, so an inbound application-level `pong` falls into the default
log-and-ignore branch — the pending ping-timeout timer is NOT cleared
(`pingTimeoutPending` stays `true`), and when that deadline then fires the
socket is force-closed with code 4000 despite the server having answered.
This contradicts the claim (and the code's own intent: the deadline is armed
"for pong response" and `MessageType.PONG` is a declared inbound type). -/
theorem inbound_pong_leaves_ping_timeout_pending :
    Websocket.processMessage Websocket.InMsg.pong pingSentState = (pingSentState, [])
  ∧ pingSentState.pingTimeoutPending = true
  ∧ (Websocket.pingTimeoutFire pingSentState).2 = [Websocket.WsOut.closeSocket 4000] :=
  ⟨rfl, rfl, rfl⟩

end PongHandling

section AuthFailure

/-- Claim C7: processing an auth result with `success = false` first emits
an `error` event and then performs a full `disconnect()`: all timers are
cleared (ping interval, pong deadline, reconnect timer), auth state and
active calls are dropped, the transport is closed cleanly with code 1000 and
`disconnected` is emitted; the final state is `disconnected` with no
reconnect timer pending, so no reconnect attempt is scheduled as a
consequence (and since `disconnect()` removes the transport's listeners
before closing, the ensuing close event reaches no handler either). -/
theorem auth_failure_error_then_full_disconnect
    (s : Websocket.WsState) (uid : Option String) (e : String)
    (hP : s.wsPresent = true) (hO : s.wsOpen = true) :
    Websocket.handleAuthResponse false uid e s =
      ({ status := Channel.ConnectionStatus.disconnected
         reconnectAttempts := 0
         reconnectTimerPending := false
         pingTimerActive := false
         pingTimeoutPending := false
         authenticated := false
         userId := none
         wsPresent := false
         wsOpen := false
         activeCallIds := [] },
       [Websocket.WsOut.emitError ("Authentication failed: " ++ e),
        Websocket.WsOut.closeSocket 1000,
        Websocket.WsOut.emitDisconnected "Client initiated disconnect"]) := by
  simp [Websocket.handleAuthResponse, Websocket.disconnect, Websocket.clearTimers,
    Websocket.clearPingTimers, hP, hO]

/-- Witness for C7 at a concrete connected state with two reconnect attempts
accumulated and one active call. -/
theorem auth_failure_error_then_full_disconnect_witness :
    ({ Websocket.initialState with
        status := Channel.ConnectionStatus.connecting
        reconnectAttempts := 2
        wsPresent := true
        wsOpen := true
        activeCallIds := ["c1"] } : Websocket.WsState).wsPresent = true
  ∧ Websocket.handleAuthResponse false none "invalid key"
      { Websocket.initialState with
          status := Channel.ConnectionStatus.connecting
          reconnectAttempts := 2
          wsPresent := true
          wsOpen := true
          activeCallIds := ["c1"] } =
      ({ status := Channel.ConnectionStatus.disconnected
         reconnectAttempts := 0
         reconnectTimerPending := false
         pingTimerActive := false
         pingTimeoutPending := false
         authenticated := false
         userId := none
         wsPresent := false
         wsOpen := false
         activeCallIds := [] },
       [Websocket.WsOut.emitError "Authentication failed: invalid key",
        Websocket.WsOut.closeSocket 1000,
        Websocket.WsOut.emitDisconnected "Client initiated disconnect"]) :=
  ⟨rfl, auth_failure_error_then_full_disconnect _ none "invalid key" rfl rfl⟩

end AuthFailure

section ConnectFailure

/-- Counterexample to claim C8 as stated: on a fresh manager whose transport
constructor throws, `connect` does not surface the failure — the error is
caught and a reconnect attempt IS scheduled (status `reconnecting`, attempt
counter 1, reconnect timer armed with a backoff delay). -/
theorem connect_ctor_throw_rejects_false :
    ((Websocket.connect ⟨5000, 10⟩ false 0 Websocket.initialState).1.reconnectTimerPending = true)
  ∧ ((Websocket.connect ⟨5000, 10⟩ false 0 Websocket.initialState).1.status
      = Channel.ConnectionStatus.reconnecting)
  ∧ ((Websocket.connect ⟨5000, 10⟩ false 0 Websocket.initialState).1.reconnectAttempts = 1) := by
  refine ⟨?_, ?_, ?_⟩ <;> rfl

/-- Claim C8, amended to what the code does: `connect()` returns `void` and
has no rejection path; when the transport constructor throws (and the
already-connected guard does not fire), the error is caught, the status
passes through `error`, and `scheduleReconnect` runs — under the attempt cap
this increments `reconnectAttempts`, sets status `reconnecting` and arms the
reconnect timer with the backoff delay. -/
theorem connect_ctor_throw_caught_schedules_backoff
    (cfg : Websocket.WsConfig) (j : ℚ) (s : Websocket.WsState)
    (hGuard : (s.wsPresent
        && (decide (s.status = Channel.ConnectionStatus.connected)
            || decide (s.status = Channel.ConnectionStatus.connecting))) = false)
    (hCap : ¬(0 < cfg.maxReconnectAttempts
        ∧ cfg.maxReconnectAttempts ≤ s.reconnectAttempts)) :
    (Websocket.connect cfg false j s).1.status = Channel.ConnectionStatus.reconnecting
  ∧ (Websocket.connect cfg false j s).1.reconnectTimerPending = true
  ∧ (Websocket.connect cfg false j s).1.reconnectAttempts = s.reconnectAttempts + 1
  ∧ (Websocket.connect cfg false j s).2
      = some (Websocket.reconnectDelay cfg.reconnectInterval (s.reconnectAttempts + 1) j) := by
  simp [Websocket.connect, Websocket.scheduleReconnect, hGuard, hCap]

/-- Witness for C8's amended theorem on a fresh manager with the default
config (reconnectInterval 5000, maxReconnectAttempts 10). -/
theorem connect_ctor_throw_caught_schedules_backoff_witness :
    ((Websocket.initialState.wsPresent
        && (decide (Websocket.initialState.status = Channel.ConnectionStatus.connected)
            || decide (Websocket.initialState.status = Channel.ConnectionStatus.connecting)))
      = false)
  ∧ ((Websocket.connect ⟨5000, 10⟩ false 0 Websocket.initialState).1.status
      = Channel.ConnectionStatus.reconnecting
     ∧ (Websocket.connect ⟨5000, 10⟩ false 0 Websocket.initialState).1.reconnectTimerPending = true
     ∧ (Websocket.connect ⟨5000, 10⟩ false 0 Websocket.initialState).1.reconnectAttempts = 0 + 1
     ∧ (Websocket.connect ⟨5000, 10⟩ false 0 Websocket.initialState).2
        = some (Websocket.reconnectDelay 5000 (0 + 1) 0)) :=
  ⟨rfl, connect_ctor_throw_caught_schedules_backoff ⟨5000, 10⟩ 0 Websocket.initialState rfl
    (by decide)⟩

end ConnectFailure

section Backoff

/-- Claim C3: for every attempt number `n ≥ 1` (the value after
`scheduleReconnect` increments) and every jitter `r ∈ [0, 1000)` ms, the
scheduled delay equals `min(baseInterval * 1.5^(n-1) + r, 60000)` (the
formula as §8 of the spec states it), never exceeds 60000 ms, and is
monotonically non-decreasing in `n` for each fixed jitter — hence also
non-decreasing in expectation over the uniform jitter.  The last conjunct
ties the formula to `scheduleReconnect`: whenever it arms the reconnect
timer, the armed delay is exactly this formula evaluated at the incremented
attempt counter. -/
theorem backoff_delay_bounded_and_monotone
    (base j : ℚ) (n1 n2 : Nat)
    (hbase : 0 ≤ base) (hj0 : 0 ≤ j) (hj1 : j < 1000) (hn1 : 1 ≤ n1) (hle : n1 ≤ n2) :
    Websocket.reconnectDelay base n1 j = Websocket.specBackoffDelay base n1 j
  ∧ Websocket.reconnectDelay base n1 j ≤ 60000
  ∧ Websocket.reconnectDelay base n1 j ≤ Websocket.reconnectDelay base n2 j
  ∧ ∀ (cfg : Websocket.WsConfig) (s s1 : Websocket.WsState) (d : ℚ),
      cfg.reconnectInterval = base →
      Websocket.scheduleReconnect cfg j s = (s1, some d) →
      d = Websocket.reconnectDelay base s1.reconnectAttempts j := by
  refine ⟨rfl, min_le_right _ _, ?_, ?_⟩
  · unfold Websocket.reconnectDelay
    refine min_le_min (add_le_add_right ?_ j) le_rfl
    exact mul_le_mul_of_nonneg_left
      (pow_le_pow_right₀ (by norm_num) (Nat.sub_le_sub_right hle 1)) hbase
  · intro cfg s s1 d hcfg h
    unfold Websocket.scheduleReconnect at h
    split at h
    · simp at h
    · obtain ⟨hs1, hd⟩ := Prod.mk.injEq .. ▸ h
      simp only [Option.some.injEq] at hd
      subst hs1
      rw [← hd, hcfg]

/-- Witness for C3 with the default base interval 5000 ms, jitter 0 and
attempts 1 ≤ 2. -/
theorem backoff_delay_bounded_and_monotone_witness :
    Websocket.reconnectDelay 5000 1 0 = Websocket.specBackoffDelay 5000 1 0
  ∧ Websocket.reconnectDelay 5000 1 0 ≤ 60000
  ∧ Websocket.reconnectDelay 5000 1 0 ≤ Websocket.reconnectDelay 5000 2 0
  ∧ ∀ (cfg : Websocket.WsConfig) (s s1 : Websocket.WsState) (d : ℚ),
      cfg.reconnectInterval = 5000 →
      Websocket.scheduleReconnect cfg 0 s = (s1, some d) →
      d = Websocket.reconnectDelay 5000 s1.reconnectAttempts 0 :=
  backoff_delay_bounded_and_monotone 5000 0 1 2 (by norm_num) le_rfl (by norm_num)
    le_rfl (by norm_num)

end Backoff

section IdleScenario

/-- An idle-check whose interval has been cleared never produces anything:
every further firing opportunity is a no-op. -/
theorem idleRun_inactive (cfg : Channel.IdleConfig) (st : Channel.CallState)
    (h : st.idleCheckActive = false) :
    ∀ ts, Channel.idleRun cfg st ts
      = (st, List.replicate ts.length Channel.IdleAction.nothing) := by
  intro ts
  induction ts with
  | nil => rfl
  | cons t ts ih =>
    simp [Channel.idleRun, Channel.idleTick, h, ih, List.replicate_succ]

/-- Length of the scenario tick-time list. -/
theorem idleTimesFrom_length (T : Int) (j n : Nat) :
    (Channel.idleTimesFrom T j n).length = n := by
  induction n generalizing j with
  | zero => rfl
  | succ n ih => simp [Channel.idleTimesFrom, ih]

/-- Unfolding lemma for one scenario tick time. -/
theorem idleTimesFrom_succ (T : Int) (j n : Nat) :
    Channel.idleTimesFrom T j (n + 1)
      = ((j : Int) + 1) * T :: Channel.idleTimesFrom T (j + 1) n := rfl

/-- Unfolding lemma for one idle-run step. -/
theorem idleRun_cons (cfg : Channel.IdleConfig) (t : Int) (ts : List Int)
    (st : Channel.CallState) :
    Channel.idleRun cfg st (t :: ts)
      = ((Channel.idleRun cfg (Channel.idleTick cfg t st).1 ts).1,
         (Channel.idleTick cfg t st).2
           :: (Channel.idleRun cfg (Channel.idleTick cfg t st).1 ts).2) := rfl

/-- While the prompt budget is not exhausted, a tick one full idle timeout
after the last activity sends the idle prompt, increments the counter and
resets `lastActivityAt` to the tick time. -/
theorem idleTick_prompt_step (cfg : Channel.IdleConfig) (cid : String) (j : Nat)
    (hj : j < cfg.maxPrompts) :
    Channel.idleTick cfg (((j : Int) + 1) * ((cfg.timeoutSec : Int) * 1000))
        (Channel.promptSt cfg cid j)
      = (Channel.promptSt cfg cid (j + 1),
         Channel.IdleAction.speakPrompt cid cfg.prompt) := by
  unfold Channel.idleTick Channel.promptSt
  have harith : ((j : Int) + 1) * ((cfg.timeoutSec : Int) * 1000)
      - (j : Int) * ((cfg.timeoutSec : Int) * 1000) = (cfg.timeoutSec : Int) * 1000 := by
    ring
  simp [harith, hj, Nat.cast_add, Nat.cast_one]

/-- Once the prompt budget is exhausted, the next qualifying tick sends the
end message and clears the idle interval. -/
theorem idleTick_end_step (cfg : Channel.IdleConfig) (cid : String) :
    Channel.idleTick cfg
        (((cfg.maxPrompts : Int) + 1) * ((cfg.timeoutSec : Int) * 1000))
        (Channel.promptSt cfg cid cfg.maxPrompts)
      = ({ Channel.promptSt cfg cid cfg.maxPrompts with idleCheckActive := false },
         Channel.IdleAction.speakEnd cid cfg.endMessage) := by
  unfold Channel.idleTick Channel.promptSt
  have harith : ((cfg.maxPrompts : Int) + 1) * ((cfg.timeoutSec : Int) * 1000)
      - (cfg.maxPrompts : Int) * ((cfg.timeoutSec : Int) * 1000)
      = (cfg.timeoutSec : Int) * 1000 := by
    ring
  simp [harith]

/-- Core of the no-activity scenario: from the state reached after `j`
prompts, with `r` prompts left in the budget, running `r + m + 1` ticks
(each one full timeout apart) yields exactly `r` prompts, then the single
end message, then `m` silent ticks, ending with the interval cleared. -/
theorem idleRun_prompts_then_end (cfg : Channel.IdleConfig) (cid : String) (m : Nat) :
    ∀ r j, j + r = cfg.maxPrompts →
    Channel.idleRun cfg (Channel.promptSt cfg cid j)
        (Channel.idleTimesFrom ((cfg.timeoutSec : Int) * 1000) j (r + m + 1))
      = ({ Channel.promptSt cfg cid cfg.maxPrompts with idleCheckActive := false },
         List.replicate r (Channel.IdleAction.speakPrompt cid cfg.prompt)
           ++ Channel.IdleAction.speakEnd cid cfg.endMessage
           :: List.replicate m Channel.IdleAction.nothing) := by
  intro r
  induction r with
  | zero =>
    intro j hj
    have hj0 : j = cfg.maxPrompts := by omega
    subst hj0
    have hn : 0 + m + 1 = m + 1 := by omega
    rw [hn, idleTimesFrom_succ, idleRun_cons, idleTick_end_step cfg cid]
    rw [idleRun_inactive cfg _ rfl]
    simp [idleTimesFrom_length]
  | succ r ih =>
    intro j hj
    have hjlt : j < cfg.maxPrompts := by omega
    have hn : r + 1 + m + 1 = (r + m + 1) + 1 := by omega
    rw [hn, idleTimesFrom_succ, idleRun_cons, idleTick_prompt_step cfg cid j hjlt]
    rw [ih (j + 1) (by omega)]
    simp [List.replicate_succ]

/-- Claim C4: for a session with idle detection enabled and
`idle.maxPrompts = k`, starting from session creation at time 0 with no
inbound activity and no outstanding request, the idle-check ticks (each one
full `idle.timeoutSec` after the previous activity reset) send exactly `k`
idle-prompt utterances — each incrementing `idlePromptCount` and resetting
`lastActivityAt` to its tick time — followed by exactly one end-message
utterance (`endCall = true`), after which the idle interval is cleared
(`idleCheckActive = false`) and any number `m` of further ticks send
nothing. -/
theorem idle_exactly_max_prompts_then_end
    (cfg : Channel.IdleConfig) (cid : String) (m : Nat) (hEn : cfg.enabled = true) :
    Channel.idleRun cfg
        (Channel.startIdleCheckInterval cfg (Channel.createCallState cid 0))
        (Channel.idleTimesFrom ((cfg.timeoutSec : Int) * 1000) 0 (cfg.maxPrompts + m + 1))
      = ({ Channel.promptSt cfg cid cfg.maxPrompts with idleCheckActive := false },
         List.replicate cfg.maxPrompts (Channel.IdleAction.speakPrompt cid cfg.prompt)
           ++ Channel.IdleAction.speakEnd cid cfg.endMessage
           :: List.replicate m Channel.IdleAction.nothing) := by
  have h0 : Channel.startIdleCheckInterval cfg (Channel.createCallState cid 0)
      = Channel.promptSt cfg cid 0 := by
    simp [Channel.startIdleCheckInterval, Channel.createCallState, Channel.promptSt, hEn]
  rw [h0]
  exact idleRun_prompts_then_end cfg cid m cfg.maxPrompts 0 (by omega)

/-- Witness for C4: the spec's scenario with `idle.maxPrompts = 2` — two
idle prompts, then one `endCall = true` utterance, then two silent ticks. -/
theorem idle_exactly_max_prompts_then_end_witness :
    (⟨true, 60, "Are you still there?", 2, "Goodbye!"⟩ : Channel.IdleConfig).enabled = true
  ∧ Channel.idleRun ⟨true, 60, "Are you still there?", 2, "Goodbye!"⟩
      (Channel.startIdleCheckInterval ⟨true, 60, "Are you still there?", 2, "Goodbye!"⟩
        (Channel.createCallState "c1" 0))
      (Channel.idleTimesFrom
        (((⟨true, 60, "Are you still there?", 2, "Goodbye!"⟩ :
            Channel.IdleConfig).timeoutSec : Int) * 1000) 0 (2 + 2 + 1))
    = ({ Channel.promptSt ⟨true, 60, "Are you still there?", 2, "Goodbye!"⟩ "c1" 2 with
          idleCheckActive := false },
       List.replicate 2 (Channel.IdleAction.speakPrompt "c1" "Are you still there?")
         ++ Channel.IdleAction.speakEnd "c1" "Goodbye!"
         :: List.replicate 2 Channel.IdleAction.nothing) :=
  ⟨rfl, idle_exactly_max_prompts_then_end
    ⟨true, 60, "Are you still there?", 2, "Goodbye!"⟩ "c1" 2 rfl⟩

end IdleScenario
